import Mathlib

/-!
# sqsmover: the transfer loop of `main.go`

A shallow embedding of `src/main.go`:

* the two batch mappers `convertToEntries` and
  `convertSuccessfulMessageToBatchRequestEntry` (lines 120-142);
* one pass through the body of the `for` loop of `main` (lines 57-115), as
  `mainLoopBody`, and the loop itself (lines 56-116), as `mainLoop`.

The queue service client (`*sqs.SQS` of aws-sdk-go) is an external library: it
is a parameter of the loop, a state machine `SQS σ` answering the three calls
the loop makes. Go pointers to strings and integers are `Option` values
(`none` is `nil`); the output values of the client and the elements of the
slices it returns are allocated values, as the client produces them.
`log.Fatalln` prints its line and ends the process with
exit status 1 (`Termination.Fatal`); `return` from `main` ends it with status
0 (`Termination.Drained`).
-/

namespace SqsMover

/-! ## Data model (the fields of the aws-sdk-go types that `main.go` touches) -/

/-- Go `error`, kept as the text `err.Error()` returns. -/
abbrev GoError := String

/-- `sqs.Message`: the three fields read by `main.go`. -/
structure Message where
  Body : Option String
  MessageId : Option String
  ReceiptHandle : Option String
deriving DecidableEq, Repr

/-- `sqs.SendMessageBatchRequestEntry`: the fields set on lines 123-126 (every
other field keeps its zero value). -/
structure SendMessageBatchRequestEntry where
  MessageBody : Option String
  Id : Option String
deriving DecidableEq, Repr

/-- `sqs.DeleteMessageBatchRequestEntry`: the fields set on lines 135-138. -/
structure DeleteMessageBatchRequestEntry where
  ReceiptHandle : Option String
  Id : Option String
deriving DecidableEq, Repr

/-- `sqs.ReceiveMessageInput`: the fields set on lines 49-54. -/
structure ReceiveMessageInput where
  QueueUrl : Option String
  VisibilityTimeout : Option Int
  WaitTimeSeconds : Option Int
  MaxNumberOfMessages : Option Int
deriving DecidableEq, Repr

/-- `sqs.ReceiveMessageOutput`. -/
structure ReceiveMessageOutput where
  Messages : List Message
deriving DecidableEq, Repr

/-- `sqs.SendMessageBatchInput`: the fields set on lines 75-78. -/
structure SendMessageBatchInput where
  QueueUrl : Option String
  Entries : List SendMessageBatchRequestEntry
deriving DecidableEq, Repr

/-- `sqs.BatchResultErrorEntry`: one failed item of a batch call. -/
structure BatchResultErrorEntry where
  Id : Option String
  Code : Option String
  Message : Option String
deriving DecidableEq, Repr

/-- `sqs.SendMessageBatchResultEntry`: one forwarded item. -/
structure SendMessageBatchResultEntry where
  Id : Option String
  MessageId : Option String
deriving DecidableEq, Repr

/-- `sqs.SendMessageBatchOutput`. -/
structure SendMessageBatchOutput where
  Failed : List BatchResultErrorEntry
  Successful : List SendMessageBatchResultEntry
deriving DecidableEq, Repr

/-- `sqs.DeleteMessageBatchInput`: the fields set on lines 97-100. -/
structure DeleteMessageBatchInput where
  Entries : List DeleteMessageBatchRequestEntry
  QueueUrl : Option String
deriving DecidableEq, Repr

/-- `sqs.DeleteMessageBatchResultEntry`: one deleted item. -/
structure DeleteMessageBatchResultEntry where
  Id : Option String
deriving DecidableEq, Repr

/-- `sqs.DeleteMessageBatchOutput`. -/
structure DeleteMessageBatchOutput where
  Failed : List BatchResultErrorEntry
  Successful : List DeleteMessageBatchResultEntry
deriving DecidableEq, Repr

/-- What one call of the queue service gives back: the output value, the Go
`error` (`none` is `nil`) and the service's state after the call. -/
structure Reply (α σ : Type) where
  out : α
  err : Option GoError
  state : σ

/-- The queue service client `svc` of `main` (type `*sqs.SQS`, from the
aws-sdk-go library, which is outside the repository), taken as a parameter: a
state machine over service states `σ` with the three calls of the loop. The
client always returns an allocated output value, also next to an error. -/
structure SQS (σ : Type) where
  ReceiveMessage : ReceiveMessageInput → σ → Reply ReceiveMessageOutput σ
  SendMessageBatch : SendMessageBatchInput → σ → Reply SendMessageBatchOutput σ
  DeleteMessageBatch : DeleteMessageBatchInput → σ → Reply DeleteMessageBatchOutput σ

/-! ## Batch mappers -/

/-- `convertToEntries` (lines 120-130): entry `i` of the result is built from
message `i`. -/
def convertToEntries (messages : List Message) : List SendMessageBatchRequestEntry :=
  messages.map fun message =>
    { MessageBody := message.Body, Id := message.MessageId }

/-- `convertSuccessfulMessageToBatchRequestEntry` (lines 132-142). -/
def convertSuccessfulMessageToBatchRequestEntry (messages : List Message) :
    List DeleteMessageBatchRequestEntry :=
  messages.map fun message =>
    { ReceiptHandle := message.ReceiptHandle, Id := message.MessageId }

/-! ## The transfer loop -/

/-- The lines `main` writes with the `log` package, one constructor per call
site. -/
inductive LogLine where
  /-- Line 57. -/
  | startingNewBatch
  /-- Line 62. -/
  | transferComplete
  /-- Lines 69 and 84: `log.Fatalln(err.Error())`. -/
  | fatalError (e : GoError)
  /-- Line 73. -/
  | messagesToTransfer (messages : List Message)
  /-- Lines 83 and 88. -/
  | failedToUnqueue
  /-- Line 89: `log.Fatalln(sendResp.Failed)`. -/
  | fatalSendFailed (failed : List BatchResultErrorEntry)
  /-- Line 93. -/
  | unqueued
  /-- Line 94. -/
  | sendSuccessful (successful : List SendMessageBatchResultEntry)
  /-- Line 105: `log.Fatalln("Error deleting messages, exiting...")`. -/
  | fatalDeleteCall
  /-- Line 109. -/
  | notDeleted
  /-- Line 110: `log.Fatalln(deleteResp.Failed)`. -/
  | fatalDeleteFailed (failed : List BatchResultErrorEntry)
  /-- Line 113. -/
  | deleted (count : Nat)
  /-- Line 114. -/
  | separator
deriving DecidableEq, Repr

/-- What an observer of the process sees: log lines and calls of the queue
service, each call with its request and what came back. -/
inductive Event where
  | log (line : LogLine)
  | ReceiveMessage (input : ReceiveMessageInput) (resp : ReceiveMessageOutput)
      (err : Option GoError)
  | SendMessageBatch (input : SendMessageBatchInput) (resp : SendMessageBatchOutput)
      (err : Option GoError)
  | DeleteMessageBatch (input : DeleteMessageBatchInput) (resp : DeleteMessageBatchOutput)
      (err : Option GoError)
deriving DecidableEq, Repr

/-- Is the event a call of the queue service? -/
def Event.isCall : Event → Bool
  | Event.log _ => false
  | _ => true

/-- Is the event a send-batch call? -/
def Event.isSend : Event → Bool
  | Event.SendMessageBatch _ _ _ => true
  | _ => false

/-- Is the event a delete-batch call? -/
def Event.isDelete : Event → Bool
  | Event.DeleteMessageBatch _ _ _ => true
  | _ => false

/-- The queue service calls among the events, in order. -/
def serviceCalls (events : List Event) : List Event :=
  events.filter Event.isCall

/-- How the process ends: `Drained` is `return` from `main` (exit status 0),
`Fatal` is `log.Fatalln` (exit status 1). -/
inductive Termination where
  | Drained
  | Fatal
deriving DecidableEq, Repr

/-- Where control goes at the end of one pass through the loop body. -/
inductive Step (σ : Type) where
  /-- Back to the top of the `for` (line 56). -/
  | next (state : σ)
  /-- The process ends. -/
  | exit (t : Termination) (state : σ)

/-- The receive request built once, on lines 49-54. -/
def receiveParams (sourceUrl : String) : ReceiveMessageInput :=
  { QueueUrl := some sourceUrl
    VisibilityTimeout := some 1
    WaitTimeSeconds := some 1
    MaxNumberOfMessages := some 10 }

/-- One pass through the body of the `for` loop of `main` (lines 57-115),
started with the queue service in state `s`: the events of the pass, and where
control goes. -/
def mainLoopBody {σ : Type} (svc : SQS σ) (sourceUrl destUrl : String) (s : σ) :
    List Event × Step σ :=
  let params := receiveParams sourceUrl
  let r := svc.ReceiveMessage params s
  let resp := r.out
  let evReceive := [Event.log LogLine.startingNewBatch, Event.ReceiveMessage params resp r.err]
  if resp.Messages.length = 0 then
    (evReceive ++ [Event.log LogLine.transferComplete], Step.exit Termination.Drained r.state)
  else
    match r.err with
    | some e =>
      (evReceive ++ [Event.log (LogLine.fatalError e)], Step.exit Termination.Fatal r.state)
    | none =>
      let batch : SendMessageBatchInput :=
        { QueueUrl := some destUrl, Entries := convertToEntries resp.Messages }
      let rs := svc.SendMessageBatch batch r.state
      let sendResp := rs.out
      let evSend := evReceive ++
        [Event.log (LogLine.messagesToTransfer resp.Messages),
         Event.SendMessageBatch batch sendResp rs.err]
      match rs.err with
      | some e =>
        (evSend ++ [Event.log LogLine.failedToUnqueue, Event.log (LogLine.fatalError e)],
          Step.exit Termination.Fatal rs.state)
      | none =>
        if sendResp.Failed.length > 0 then
          (evSend ++ [Event.log LogLine.failedToUnqueue,
                      Event.log (LogLine.fatalSendFailed sendResp.Failed)],
            Step.exit Termination.Fatal rs.state)
        else
          let evSent := evSend ++
            [Event.log LogLine.unqueued, Event.log (LogLine.sendSuccessful sendResp.Successful)]
          if sendResp.Successful.length = resp.Messages.length then
            let deleteMessageBatch : DeleteMessageBatchInput :=
              { Entries := convertSuccessfulMessageToBatchRequestEntry resp.Messages
                QueueUrl := some sourceUrl }
            let rd := svc.DeleteMessageBatch deleteMessageBatch rs.state
            let deleteResp := rd.out
            let evDelete := evSent ++
              [Event.DeleteMessageBatch deleteMessageBatch deleteResp rd.err]
            match rd.err with
            | some _ =>
              (evDelete ++ [Event.log LogLine.fatalDeleteCall],
                Step.exit Termination.Fatal rd.state)
            | none =>
              if deleteResp.Failed.length > 0 then
                (evDelete ++ [Event.log LogLine.notDeleted,
                              Event.log (LogLine.fatalDeleteFailed deleteResp.Failed)],
                  Step.exit Termination.Fatal rd.state)
              else
                (evDelete ++ [Event.log (LogLine.deleted deleteResp.Successful.length),
                              Event.log LogLine.separator],
                  Step.next rd.state)
          else
            (evSent, Step.next rs.state)

/-- A run of the loop, as far as it was followed: the events of each pass
through the body, how the process ended (`none` while the loop is still
running) and the state of the queue service. -/
structure Run (σ : Type) where
  cycles : List (List Event)
  result : Option Termination
  state : σ

/-- The `for` loop of `main` (lines 56-116), followed for at most `fuel`
passes through its body. -/
def mainLoop {σ : Type} (svc : SQS σ) (sourceUrl destUrl : String) : Nat → σ → Run σ
  | 0, s => { cycles := [], result := none, state := s }
  | fuel + 1, s =>
    match mainLoopBody svc sourceUrl destUrl s with
    | (events, Step.exit t s') => { cycles := [events], result := some t, state := s' }
    | (events, Step.next s') =>
      let rest := mainLoop svc sourceUrl destUrl fuel s'
      { cycles := events :: rest.cycles, result := rest.result, state := rest.state }

/-! ## Queue services used as environments -/

/-- A queue service that gives the same three answers whatever it is asked. -/
def fixedService (receive : ReceiveMessageOutput × Option GoError)
    (send : SendMessageBatchOutput × Option GoError)
    (delete : DeleteMessageBatchOutput × Option GoError) : SQS Unit :=
  { ReceiveMessage := fun _ s => { out := receive.1, err := receive.2, state := s }
    SendMessageBatch := fun _ s => { out := send.1, err := send.2, state := s }
    DeleteMessageBatch := fun _ s => { out := delete.1, err := delete.2, state := s } }

/-- The two queues of a transfer: what is still on the source, and what has
been put on the destination. -/
structure Queues where
  source : List Message
  dest : List SendMessageBatchRequestEntry
deriving DecidableEq, Repr

/-- Modelled from the spec: the well-behaved queue service of the drain
scenario (the SQS service itself is not part of the repository). A receive on
the source address returns the first messages still on the source, at most as
many as the request allows (one when the request does not say), and leaves
them there; a send-batch on the destination address succeeds for every entry
and appends the entries to the destination; a delete-batch on the source
address succeeds for every entry and removes, for each entry, the first
message with the entry's receipt token. A call on any other address fails. -/
def wellBehaved (sourceUrl destUrl : String) : SQS Queues :=
  { ReceiveMessage := fun input q =>
      if input.QueueUrl = some sourceUrl then
        { out := { Messages := q.source.take (input.MaxNumberOfMessages.getD 1).toNat }
          err := none, state := q }
      else
        { out := { Messages := [] }, err := some "NonExistentQueue", state := q }
    SendMessageBatch := fun input q =>
      if input.QueueUrl = some destUrl then
        { out := { Failed := []
                   Successful := input.Entries.map fun e => { Id := e.Id, MessageId := e.Id } }
          err := none
          state := { source := q.source, dest := q.dest ++ input.Entries } }
      else
        { out := { Failed := [], Successful := [] }, err := some "NonExistentQueue", state := q }
    DeleteMessageBatch := fun input q =>
      if input.QueueUrl = some sourceUrl then
        { out := { Failed := [], Successful := input.Entries.map fun e => { Id := e.Id } }
          err := none
          state :=
            { source := input.Entries.foldl
                (fun src e => src.eraseP fun m => m.ReceiptHandle == e.ReceiptHandle) q.source
              dest := q.dest } }
      else
        { out := { Failed := [], Successful := [] }, err := some "NonExistentQueue", state := q } }

/-- A message with the given identifier, whose body and receipt token are
derived from it. -/
def msg (id : String) : Message :=
  { Body := some ("body-" ++ id), MessageId := some id, ReceiptHandle := some ("rh-" ++ id) }

/-- The queue service of the scenario "send-batch succeeds for A, fails for
B": every receive returns `[A, B]`, every send-batch reports A forwarded and B
failed. -/
def itemFailedSendService : SQS Unit :=
  fixedService
    ({ Messages := [msg "A", msg "B"] }, none)
    ({ Failed := [{ Id := some "B", Code := some "InternalError", Message := none }]
       Successful := [{ Id := some "A", MessageId := some "dest-A" }] }, none)
    ({ Failed := [], Successful := [] }, none)

/-- The queue service of the scenario "source has 5 messages; all forward;
delete-batch succeeds for 4, fails for 1": every receive returns the five
messages, every send-batch reports all five forwarded, every delete-batch
reports message E not deleted. -/
def itemFailedDeleteService : SQS Unit :=
  fixedService
    ({ Messages := [msg "A", msg "B", msg "C", msg "D", msg "E"] }, none)
    ({ Failed := []
       Successful := [{ Id := some "A", MessageId := some "dest-A" },
                      { Id := some "B", MessageId := some "dest-B" },
                      { Id := some "C", MessageId := some "dest-C" },
                      { Id := some "D", MessageId := some "dest-D" },
                      { Id := some "E", MessageId := some "dest-E" }] }, none)
    ({ Failed := [{ Id := some "E", Code := some "ReceiptHandleIsInvalid", Message := none }]
       Successful := [{ Id := some "A" }, { Id := some "B" }, { Id := some "C" },
                      { Id := some "D" }] }, none)

/-- A queue service whose receive call fails: the client returns the error
next to an output value without messages. -/
def failedReceiveService : SQS Unit :=
  fixedService
    ({ Messages := [] }, some "RequestError: send request failed")
    ({ Failed := [], Successful := [] }, none)
    ({ Failed := [], Successful := [] }, none)

/-- A queue service whose send-batch call fails outright: every receive
returns `[A, B]`. -/
def failedSendService : SQS Unit :=
  fixedService
    ({ Messages := [msg "A", msg "B"] }, none)
    ({ Failed := [], Successful := [] }, some "RequestError: send request failed")
    ({ Failed := [], Successful := [] }, none)

/-- A queue service whose delete-batch call fails outright: every receive
returns `[A, B]` and every send-batch forwards both. -/
def failedDeleteService : SQS Unit :=
  fixedService
    ({ Messages := [msg "A", msg "B"] }, none)
    ({ Failed := []
       Successful := [{ Id := some "A", MessageId := some "dest-A" },
                      { Id := some "B", MessageId := some "dest-B" }] }, none)
    ({ Failed := [], Successful := [] }, some "RequestError: send request failed")

/-- A queue service whose send-batch answers for fewer items than it was
given, without reporting any as failed: every receive returns `[A, B]`, every
send-batch reports only A, as forwarded. -/
def shortSendService : SQS Unit :=
  fixedService
    ({ Messages := [msg "A", msg "B"] }, none)
    ({ Failed := [], Successful := [{ Id := some "A", MessageId := some "dest-A" }] }, none)
    ({ Failed := [], Successful := [] }, none)

/-! ## The shape of one pass through the loop body -/

/-- Every pass starts with the log line of line 57 and the receive call of
line 59, made with the request of lines 49-54. -/
theorem mainLoopBody_starts {σ : Type} (svc : SQS σ) (sourceUrl destUrl : String) (s : σ) :
    ∃ rest, (mainLoopBody svc sourceUrl destUrl s).1 =
      Event.log LogLine.startingNewBatch ::
      Event.ReceiveMessage (receiveParams sourceUrl)
        (svc.ReceiveMessage (receiveParams sourceUrl) s).out
        (svc.ReceiveMessage (receiveParams sourceUrl) s).err :: rest := by
  simp only [mainLoopBody]
  split
  · exact ⟨_, rfl⟩
  · split
    · exact ⟨_, rfl⟩
    · split
      · exact ⟨_, rfl⟩
      · split
        · exact ⟨_, rfl⟩
        · split
          · split
            · exact ⟨_, rfl⟩
            · split
              · exact ⟨_, rfl⟩
              · exact ⟨_, rfl⟩
          · exact ⟨_, rfl⟩

/-- The eight ways through the loop body, each with the events it leaves and
where control goes: `r`, `rs` and `rd` are what the receive, the send-batch
and the delete-batch call give back. -/
theorem mainLoopBody_cases {σ : Type} (svc : SQS σ) (sourceUrl destUrl : String) (s : σ)
    (r : Reply ReceiveMessageOutput σ) (hr : r = svc.ReceiveMessage (receiveParams sourceUrl) s)
    (batch : SendMessageBatchInput)
    (hbatch : batch = { QueueUrl := some destUrl, Entries := convertToEntries r.out.Messages })
    (rs : Reply SendMessageBatchOutput σ) (hrs : rs = svc.SendMessageBatch batch r.state)
    (del : DeleteMessageBatchInput)
    (hdel : del = { Entries := convertSuccessfulMessageToBatchRequestEntry r.out.Messages
                    QueueUrl := some sourceUrl })
    (rd : Reply DeleteMessageBatchOutput σ) (hrd : rd = svc.DeleteMessageBatch del rs.state) :
    (r.out.Messages = [] ∧ mainLoopBody svc sourceUrl destUrl s =
      ([Event.log LogLine.startingNewBatch,
        Event.ReceiveMessage (receiveParams sourceUrl) r.out r.err,
        Event.log LogLine.transferComplete], Step.exit Termination.Drained r.state)) ∨
    (r.out.Messages ≠ [] ∧ ∃ e, r.err = some e ∧ mainLoopBody svc sourceUrl destUrl s =
      ([Event.log LogLine.startingNewBatch,
        Event.ReceiveMessage (receiveParams sourceUrl) r.out r.err,
        Event.log (LogLine.fatalError e)], Step.exit Termination.Fatal r.state)) ∨
    (r.out.Messages ≠ [] ∧ r.err = none ∧ ∃ e, rs.err = some e ∧
      mainLoopBody svc sourceUrl destUrl s =
      ([Event.log LogLine.startingNewBatch,
        Event.ReceiveMessage (receiveParams sourceUrl) r.out r.err,
        Event.log (LogLine.messagesToTransfer r.out.Messages),
        Event.SendMessageBatch batch rs.out rs.err,
        Event.log LogLine.failedToUnqueue,
        Event.log (LogLine.fatalError e)], Step.exit Termination.Fatal rs.state)) ∨
    (r.out.Messages ≠ [] ∧ r.err = none ∧ rs.err = none ∧ rs.out.Failed ≠ [] ∧
      mainLoopBody svc sourceUrl destUrl s =
      ([Event.log LogLine.startingNewBatch,
        Event.ReceiveMessage (receiveParams sourceUrl) r.out r.err,
        Event.log (LogLine.messagesToTransfer r.out.Messages),
        Event.SendMessageBatch batch rs.out rs.err,
        Event.log LogLine.failedToUnqueue,
        Event.log (LogLine.fatalSendFailed rs.out.Failed)],
       Step.exit Termination.Fatal rs.state)) ∨
    (r.out.Messages ≠ [] ∧ r.err = none ∧ rs.err = none ∧ rs.out.Failed = [] ∧
      rs.out.Successful.length ≠ r.out.Messages.length ∧
      mainLoopBody svc sourceUrl destUrl s =
      ([Event.log LogLine.startingNewBatch,
        Event.ReceiveMessage (receiveParams sourceUrl) r.out r.err,
        Event.log (LogLine.messagesToTransfer r.out.Messages),
        Event.SendMessageBatch batch rs.out rs.err,
        Event.log LogLine.unqueued,
        Event.log (LogLine.sendSuccessful rs.out.Successful)], Step.next rs.state)) ∨
    (r.out.Messages ≠ [] ∧ r.err = none ∧ rs.err = none ∧ rs.out.Failed = [] ∧
      rs.out.Successful.length = r.out.Messages.length ∧ ∃ e, rd.err = some e ∧
      mainLoopBody svc sourceUrl destUrl s =
      ([Event.log LogLine.startingNewBatch,
        Event.ReceiveMessage (receiveParams sourceUrl) r.out r.err,
        Event.log (LogLine.messagesToTransfer r.out.Messages),
        Event.SendMessageBatch batch rs.out rs.err,
        Event.log LogLine.unqueued,
        Event.log (LogLine.sendSuccessful rs.out.Successful),
        Event.DeleteMessageBatch del rd.out rd.err,
        Event.log LogLine.fatalDeleteCall], Step.exit Termination.Fatal rd.state)) ∨
    (r.out.Messages ≠ [] ∧ r.err = none ∧ rs.err = none ∧ rs.out.Failed = [] ∧
      rs.out.Successful.length = r.out.Messages.length ∧ rd.err = none ∧
      rd.out.Failed ≠ [] ∧
      mainLoopBody svc sourceUrl destUrl s =
      ([Event.log LogLine.startingNewBatch,
        Event.ReceiveMessage (receiveParams sourceUrl) r.out r.err,
        Event.log (LogLine.messagesToTransfer r.out.Messages),
        Event.SendMessageBatch batch rs.out rs.err,
        Event.log LogLine.unqueued,
        Event.log (LogLine.sendSuccessful rs.out.Successful),
        Event.DeleteMessageBatch del rd.out rd.err,
        Event.log LogLine.notDeleted,
        Event.log (LogLine.fatalDeleteFailed rd.out.Failed)],
       Step.exit Termination.Fatal rd.state)) ∨
    (r.out.Messages ≠ [] ∧ r.err = none ∧ rs.err = none ∧ rs.out.Failed = [] ∧
      rs.out.Successful.length = r.out.Messages.length ∧ rd.err = none ∧
      rd.out.Failed = [] ∧
      mainLoopBody svc sourceUrl destUrl s =
      ([Event.log LogLine.startingNewBatch,
        Event.ReceiveMessage (receiveParams sourceUrl) r.out r.err,
        Event.log (LogLine.messagesToTransfer r.out.Messages),
        Event.SendMessageBatch batch rs.out rs.err,
        Event.log LogLine.unqueued,
        Event.log (LogLine.sendSuccessful rs.out.Successful),
        Event.DeleteMessageBatch del rd.out rd.err,
        Event.log (LogLine.deleted rd.out.Successful.length),
        Event.log LogLine.separator], Step.next rd.state)) := by
  subst hr hbatch hrs hdel hrd
  simp only [mainLoopBody]
  split
  · simp_all [List.length_pos]
  · split
    · simp_all [List.length_pos]
    · split
      · simp_all [List.length_pos]
      · split
        · simp_all [List.length_pos]
        · split
          · split
            · simp_all [List.length_pos]
            · split
              · simp_all [List.length_pos]
              · simp_all [List.length_pos]
          · simp_all [List.length_pos]

/-! ## The passes of a run -/

/-- One more pass, unfolded. -/
theorem mainLoop_succ {σ : Type} (svc : SQS σ) (sourceUrl destUrl : String) (fuel : Nat) (s : σ) :
    mainLoop svc sourceUrl destUrl (fuel + 1) s =
      match mainLoopBody svc sourceUrl destUrl s with
      | (events, Step.exit t s') => { cycles := [events], result := some t, state := s' }
      | (events, Step.next s') =>
        { cycles := events :: (mainLoop svc sourceUrl destUrl fuel s').cycles
          result := (mainLoop svc sourceUrl destUrl fuel s').result
          state := (mainLoop svc sourceUrl destUrl fuel s').state } := by
  rfl

/-- With fuel left, the first pass of a run is the loop body at the start
state. -/
theorem mainLoop_head {σ : Type} (svc : SQS σ) (sourceUrl destUrl : String) (fuel : Nat) (s : σ) :
    (mainLoop svc sourceUrl destUrl (fuel + 1) s).cycles[0]? =
      some (mainLoopBody svc sourceUrl destUrl s).1 := by
  rw [mainLoop_succ]
  rcases h : mainLoopBody svc sourceUrl destUrl s with ⟨events, step⟩
  cases step <;> simp

/-- Pass `i` of a run is the loop body at some state of the queue service; if
that pass ends the process, it is the last pass of the run and the run ends
the same way; if it goes back to the top of the loop, the run has not ended
with it, and the next pass follows as long as there is fuel. -/
theorem mainLoop_cycle_at {σ : Type} (svc : SQS σ) (sourceUrl destUrl : String) :
    ∀ (fuel : Nat) (s : σ) (i : Nat) (c : List Event),
      (mainLoop svc sourceUrl destUrl fuel s).cycles[i]? = some c →
      ∃ si, (mainLoopBody svc sourceUrl destUrl si).1 = c ∧
        (∀ t s', (mainLoopBody svc sourceUrl destUrl si).2 = Step.exit t s' →
          (mainLoop svc sourceUrl destUrl fuel s).result = some t ∧
          (mainLoop svc sourceUrl destUrl fuel s).cycles.length = i + 1 ∧
          (mainLoop svc sourceUrl destUrl fuel s).state = s') ∧
        (∀ s', (mainLoopBody svc sourceUrl destUrl si).2 = Step.next s' →
          ((mainLoop svc sourceUrl destUrl fuel s).cycles.length = i + 1 →
            (mainLoop svc sourceUrl destUrl fuel s).result = none) ∧
          (i + 1 < fuel → (mainLoop svc sourceUrl destUrl fuel s).cycles[i + 1]? =
            some (mainLoopBody svc sourceUrl destUrl s').1)) := by
  intro fuel
  induction fuel with
  | zero => intro s i c h; simp [mainLoop] at h
  | succ n ih =>
    intro s i c h
    rw [mainLoop_succ] at h ⊢
    rcases hb : mainLoopBody svc sourceUrl destUrl s with ⟨events, step⟩
    rw [hb] at h
    cases step with
    | exit t s' =>
      cases i with
      | zero =>
        simp at h
        refine ⟨s, by simp [hb, h], ?_, ?_⟩
        · intro t2 s2 h2; simp [hb] at h2; simp [h2]
        · intro s2 h2; simp [hb] at h2
      | succ j => simp at h
    | next s' =>
      cases i with
      | zero =>
        simp at h
        refine ⟨s, by simp [hb, h], ?_, ?_⟩
        · intro t2 s2 h2; simp [hb] at h2
        · intro s2 h2
          simp [hb] at h2
          subst h2
          constructor
          · intro hl
            cases n with
            | zero => simp [mainLoop]
            | succ m =>
              have := mainLoop_head svc sourceUrl destUrl m s'
              simp at hl
              simp [hl] at this
          · intro hlt
            cases n with
            | zero => omega
            | succ m => simpa using mainLoop_head svc sourceUrl destUrl m s'
      | succ j =>
        simp at h
        obtain ⟨si, h1, h2, h3⟩ := ih s' j c h
        refine ⟨si, h1, ?_, ?_⟩
        · intro t2 s2 hx
          obtain ⟨a, b, c⟩ := h2 t2 s2 hx
          simp [a, b, c]
        · intro s2 hx
          obtain ⟨a, b⟩ := h3 s2 hx
          constructor
          · intro hl; simp at hl; exact a hl
          · intro hlt; simpa using b (by omega)

/-- A list whose last position is `i` and that holds `c` there is `[c]` from
position `i` on. -/
theorem drop_of_last {α : Type} (l : List α) (i : Nat) (c : α) (h : l[i]? = some c)
    (hl : l.length = i + 1) : l.drop i = [c] := by
  induction l generalizing i with
  | nil => simp at h
  | cons a t ih =>
    cases i with
    | zero =>
      simp at h hl
      simp [h, hl]
    | succ j =>
      simp at h hl
      simpa using ih j h hl

/-! ## The well-behaved service -/

/-- Deleting the entries built from the first `k` messages of the source
removes exactly those messages. -/
theorem erase_received (k : Nat) (source : List Message) :
    (convertSuccessfulMessageToBatchRequestEntry (source.take k)).foldl
      (fun src e => src.eraseP fun m => m.ReceiptHandle == e.ReceiptHandle) source =
      source.drop k := by
  induction k generalizing source with
  | zero => simp [convertSuccessfulMessageToBatchRequestEntry]
  | succ n ih =>
    cases source with
    | nil => simp [convertSuccessfulMessageToBatchRequestEntry]
    | cons m rest =>
      simpa [convertSuccessfulMessageToBatchRequestEntry] using ih rest

/-- Against the well-behaved service, a pass that finds the source empty ends
the process in the Drained state and leaves both queues as they are. -/
theorem wellBehaved_body_empty (sourceUrl destUrl : String)
    (dest : List SendMessageBatchRequestEntry) :
    (mainLoopBody (wellBehaved sourceUrl destUrl) sourceUrl destUrl
      { source := [], dest := dest }).2 =
      Step.exit Termination.Drained { source := [], dest := dest } := by
  simp [mainLoopBody, wellBehaved, receiveParams]

/-- Against the well-behaved service, a pass that finds messages on the source
moves the first ten of them (all, when fewer) to the destination and goes back
to the top of the loop. -/
theorem wellBehaved_body_step (sourceUrl destUrl : String) (source : List Message)
    (dest : List SendMessageBatchRequestEntry) (h : source ≠ []) :
    (mainLoopBody (wellBehaved sourceUrl destUrl) sourceUrl destUrl
      { source := source, dest := dest }).2 =
      Step.next { source := source.drop 10, dest := dest ++ convertToEntries (source.take 10) } := by
  have h10 := erase_received 10 source
  simp [mainLoopBody, wellBehaved, receiveParams, h, h10, convertToEntries]

/-- Against the well-behaved service, with fuel for one pass per ten messages
(rounded up) and one more, the run ends Drained with the source empty and the
entries of all the source messages appended, in order, to the destination. -/
theorem wellBehaved_drains (sourceUrl destUrl : String) :
    ∀ (fuel : Nat) (source : List Message) (dest : List SendMessageBatchRequestEntry),
      (source.length + 9) / 10 < fuel →
      (mainLoop (wellBehaved sourceUrl destUrl) sourceUrl destUrl fuel
        { source := source, dest := dest }).result = some Termination.Drained ∧
      (mainLoop (wellBehaved sourceUrl destUrl) sourceUrl destUrl fuel
        { source := source, dest := dest }).state =
        { source := [], dest := dest ++ convertToEntries source } ∧
      (mainLoop (wellBehaved sourceUrl destUrl) sourceUrl destUrl fuel
        { source := source, dest := dest }).cycles.length = (source.length + 9) / 10 + 1 := by
  intro fuel
  induction fuel with
  | zero => intro source dest h; omega
  | succ n ih =>
    intro source dest h
    rw [mainLoop_succ]
    by_cases hs : source = []
    · subst hs
      have hb := wellBehaved_body_empty sourceUrl destUrl dest
      rcases hbody : mainLoopBody (wellBehaved sourceUrl destUrl) sourceUrl destUrl
        { source := [], dest := dest } with ⟨events, step⟩
      rw [hbody] at hb
      simp at hb
      subst hb
      simp [convertToEntries]
    · have hb := wellBehaved_body_step sourceUrl destUrl source dest hs
      rcases hbody : mainLoopBody (wellBehaved sourceUrl destUrl) sourceUrl destUrl
        { source := source, dest := dest } with ⟨events, step⟩
      rw [hbody] at hb
      simp at hb
      subst hb
      have hpos : 0 < source.length := List.length_pos.mpr hs
      have hlen : ((source.drop 10).length + 9) / 10 < n := by
        rw [List.length_drop]; omega
      obtain ⟨a, b, c⟩ := ih (source.drop 10) (dest ++ convertToEntries (source.take 10)) hlen
      refine ⟨by simpa using a, ?_, ?_⟩
      · simp only [b]
        have : convertToEntries (source.take 10) ++ convertToEntries (source.drop 10) =
            convertToEntries source := by
          simp only [convertToEntries, ← List.map_append, List.take_append_drop]
        simp [List.append_assoc, this]
      · simp only [List.length_cons, c, List.length_drop]
        omega

/-! ## Claims -/

/-- C1: in every pass of a run in which the send-batch call came back without
an error of the call but with at least one entry in `Failed`, the process ends
in the Fatal state with that pass: the receive had returned a non-empty batch,
the send is the last call of the queue service, and no delete-batch call is
made. -/
theorem C1_failed_send_entry_is_fatal {σ : Type} (svc : SQS σ) (sourceUrl destUrl : String)
    (fuel : Nat) (s : σ) (i : Nat) (c : List Event)
    (hc : (mainLoop svc sourceUrl destUrl fuel s).cycles[i]? = some c)
    (input : SendMessageBatchInput) (resp : SendMessageBatchOutput)
    (hsend : Event.SendMessageBatch input resp none ∈ c) (hfailed : resp.Failed ≠ []) :
    (mainLoop svc sourceUrl destUrl fuel s).result = some Termination.Fatal ∧
    (mainLoop svc sourceUrl destUrl fuel s).cycles.length = i + 1 ∧
    (∀ e ∈ c, e.isDelete = false) ∧
    ∃ received : ReceiveMessageOutput, received.Messages ≠ [] ∧
      serviceCalls c =
        [Event.ReceiveMessage (receiveParams sourceUrl) received none,
         Event.SendMessageBatch input resp none] := by
  obtain ⟨si, h1, h2, -⟩ := mainLoop_cycle_at svc sourceUrl destUrl fuel s i c hc
  rcases mainLoopBody_cases svc sourceUrl destUrl si _ rfl _ rfl _ rfl _ rfl _ rfl with
    h | h | h | h | h | h | h | h
  · obtain ⟨-, hb⟩ := h
    rw [hb] at h1; subst h1; simp at hsend
  · obtain ⟨-, e, -, hb⟩ := h
    rw [hb] at h1; subst h1; simp at hsend
  · obtain ⟨-, -, e, he, hb⟩ := h
    rw [hb] at h1; subst h1; simp at hsend
    rw [he] at hsend; simp at hsend
  · obtain ⟨hne, hre, hse, -, hb⟩ := h
    obtain ⟨a, b, -⟩ := h2 Termination.Fatal _ (by rw [hb])
    rw [hb] at h1; subst h1
    simp at hsend
    obtain ⟨hi, ho, -⟩ := hsend
    refine ⟨a, b, ?_, _, hne, ?_⟩
    · simp [Event.isDelete]
    · simp [serviceCalls, Event.isCall, hre, hse, hi, ho]
  · obtain ⟨-, -, -, hf, -, hb⟩ := h
    rw [hb] at h1; subst h1; simp at hsend
    obtain ⟨-, ho, -⟩ := hsend
    rw [ho] at hfailed; exact absurd hf hfailed
  · obtain ⟨-, -, -, hf, -, e, -, hb⟩ := h
    rw [hb] at h1; subst h1; simp at hsend
    obtain ⟨-, ho, -⟩ := hsend
    rw [ho] at hfailed; exact absurd hf hfailed
  · obtain ⟨-, -, -, hf, -, -, -, hb⟩ := h
    rw [hb] at h1; subst h1; simp at hsend
    obtain ⟨-, ho, -⟩ := hsend
    rw [ho] at hfailed; exact absurd hf hfailed
  · obtain ⟨-, -, -, hf, -, -, -, hb⟩ := h
    rw [hb] at h1; subst h1; simp at hsend
    obtain ⟨-, ho, -⟩ := hsend
    rw [ho] at hfailed; exact absurd hf hfailed

/-- Witness of C1: in the scenario "source has [A, B]; send-batch succeeds for
A, fails for B" the run ends Fatal in its first pass, after the receive and
the send and without a delete. -/
theorem C1_failed_send_entry_is_fatal_witness :
    (mainLoop itemFailedSendService "source" "dest" 3 ()).result = some Termination.Fatal ∧
    (mainLoop itemFailedSendService "source" "dest" 3 ()).cycles.length = 1 ∧
    (∀ e ∈ (mainLoopBody itemFailedSendService "source" "dest" ()).1, e.isDelete = false) ∧
    ∃ received : ReceiveMessageOutput, received.Messages ≠ [] ∧
      serviceCalls (mainLoopBody itemFailedSendService "source" "dest" ()).1 =
        [Event.ReceiveMessage (receiveParams "source") received none,
         Event.SendMessageBatch
           { QueueUrl := some "dest", Entries := convertToEntries [msg "A", msg "B"] }
           { Failed := [{ Id := some "B", Code := some "InternalError", Message := none }]
             Successful := [{ Id := some "A", MessageId := some "dest-A" }] } none] :=
  C1_failed_send_entry_is_fatal itemFailedSendService "source" "dest" 3 () 0 _
    (mainLoop_head _ _ _ _ _) _ _
    (by simp [mainLoopBody, itemFailedSendService, fixedService]) (by simp)

/-- C2: in every run, against every queue service, a pass that contains a
delete-batch call consists of exactly three calls: a receive that returned a
non-empty batch without error, a send-batch of that batch to the destination
that returned no error, an empty `Failed` list and a `Successful` list as long
as the batch, and then the delete-batch, whose entries are built from that
same batch. -/
theorem C2_delete_follows_confirmed_send {σ : Type} (svc : SQS σ) (sourceUrl destUrl : String)
    (fuel : Nat) (s : σ) (i : Nat) (c : List Event)
    (hc : (mainLoop svc sourceUrl destUrl fuel s).cycles[i]? = some c)
    (input : DeleteMessageBatchInput) (resp : DeleteMessageBatchOutput) (err : Option GoError)
    (hdelete : Event.DeleteMessageBatch input resp err ∈ c) :
    ∃ (received : ReceiveMessageOutput) (sent : SendMessageBatchOutput),
      received.Messages ≠ [] ∧ sent.Failed = [] ∧
      sent.Successful.length = received.Messages.length ∧
      input = { Entries := convertSuccessfulMessageToBatchRequestEntry received.Messages
                QueueUrl := some sourceUrl } ∧
      serviceCalls c =
        [Event.ReceiveMessage (receiveParams sourceUrl) received none,
         Event.SendMessageBatch
           { QueueUrl := some destUrl, Entries := convertToEntries received.Messages } sent none,
         Event.DeleteMessageBatch input resp err] := by
  obtain ⟨si, h1, -, -⟩ := mainLoop_cycle_at svc sourceUrl destUrl fuel s i c hc
  rcases mainLoopBody_cases svc sourceUrl destUrl si _ rfl _ rfl _ rfl _ rfl _ rfl with
    h | h | h | h | h | h | h | h
  · obtain ⟨-, hb⟩ := h
    rw [hb] at h1; subst h1; simp at hdelete
  · obtain ⟨-, e, -, hb⟩ := h
    rw [hb] at h1; subst h1; simp at hdelete
  · obtain ⟨-, -, e, -, hb⟩ := h
    rw [hb] at h1; subst h1; simp at hdelete
  · obtain ⟨-, -, -, -, hb⟩ := h
    rw [hb] at h1; subst h1; simp at hdelete
  · obtain ⟨-, -, -, -, -, hb⟩ := h
    rw [hb] at h1; subst h1; simp at hdelete
  · obtain ⟨hne, hre, hse, hf, hl, e, -, hb⟩ := h
    rw [hb] at h1; subst h1; simp at hdelete
    obtain ⟨hi, ho, he⟩ := hdelete
    refine ⟨_, _, hne, hf, hl, hi, ?_⟩
    simp [serviceCalls, Event.isCall, hre, hse, hi, ho, he]
  · obtain ⟨hne, hre, hse, hf, hl, -, -, hb⟩ := h
    rw [hb] at h1; subst h1; simp at hdelete
    obtain ⟨hi, ho, he⟩ := hdelete
    refine ⟨_, _, hne, hf, hl, hi, ?_⟩
    simp [serviceCalls, Event.isCall, hre, hse, hi, ho, he]
  · obtain ⟨hne, hre, hse, hf, hl, -, -, hb⟩ := h
    rw [hb] at h1; subst h1; simp at hdelete
    obtain ⟨hi, ho, he⟩ := hdelete
    refine ⟨_, _, hne, hf, hl, hi, ?_⟩
    simp [serviceCalls, Event.isCall, hre, hse, hi, ho, he]

/-- Witness of C2: in the first pass of the drain of `[A, B, C]` against the
well-behaved service, the delete-batch follows the receive of the batch and
its confirmed send. -/
theorem C2_delete_follows_confirmed_send_witness :
    ∃ (received : ReceiveMessageOutput) (sent : SendMessageBatchOutput),
      received.Messages ≠ [] ∧ sent.Failed = [] ∧
      sent.Successful.length = received.Messages.length ∧
      ({ Entries := convertSuccessfulMessageToBatchRequestEntry [msg "A", msg "B", msg "C"]
         QueueUrl := some "source" } : DeleteMessageBatchInput) =
        { Entries := convertSuccessfulMessageToBatchRequestEntry received.Messages
          QueueUrl := some "source" } ∧
      serviceCalls (mainLoopBody (wellBehaved "source" "dest") "source" "dest"
          { source := [msg "A", msg "B", msg "C"], dest := [] }).1 =
        [Event.ReceiveMessage (receiveParams "source") received none,
         Event.SendMessageBatch
           { QueueUrl := some "dest", Entries := convertToEntries received.Messages } sent none,
         Event.DeleteMessageBatch
           { Entries := convertSuccessfulMessageToBatchRequestEntry [msg "A", msg "B", msg "C"]
             QueueUrl := some "source" }
           { Failed := []
             Successful := [{ Id := some "A" }, { Id := some "B" }, { Id := some "C" }] }
           none] :=
  C2_delete_follows_confirmed_send (wellBehaved "source" "dest") "source" "dest" 2
    { source := [msg "A", msg "B", msg "C"], dest := [] } 0 _ (mainLoop_head _ _ _ _ _)
    { Entries := convertSuccessfulMessageToBatchRequestEntry [msg "A", msg "B", msg "C"]
      QueueUrl := some "source" }
    { Failed := [], Successful := [{ Id := some "A" }, { Id := some "B" }, { Id := some "C" }] }
    none
    (by simp [mainLoopBody, wellBehaved, receiveParams, convertToEntries,
          convertSuccessfulMessageToBatchRequestEntry, msg])

/-- C3: in every pass of a run in which the receive returned the batch
`received.Messages` and the send-batch call came back without error, with an
empty `Failed` list and one `Successful` entry per received message, exactly
one delete-batch call is made: on the source queue address, right after the
send, with one entry per received message, in input order, carrying that
message's identifier and receipt token. -/
theorem C3_confirmed_send_is_followed_by_one_delete {σ : Type} (svc : SQS σ)
    (sourceUrl destUrl : String) (fuel : Nat) (s : σ) (i : Nat) (c : List Event)
    (hc : (mainLoop svc sourceUrl destUrl fuel s).cycles[i]? = some c)
    (rinput : ReceiveMessageInput) (received : ReceiveMessageOutput) (rerr : Option GoError)
    (hreceive : Event.ReceiveMessage rinput received rerr ∈ c)
    (sinput : SendMessageBatchInput) (sent : SendMessageBatchOutput)
    (hsend : Event.SendMessageBatch sinput sent none ∈ c)
    (hfailed : sent.Failed = [])
    (hsuccessful : sent.Successful.length = received.Messages.length) :
    ∃ (entries : List DeleteMessageBatchRequestEntry) (resp : DeleteMessageBatchOutput)
      (err : Option GoError),
      c.filter Event.isDelete =
        [Event.DeleteMessageBatch { Entries := entries, QueueUrl := some sourceUrl } resp err] ∧
      serviceCalls c =
        [Event.ReceiveMessage rinput received rerr,
         Event.SendMessageBatch sinput sent none,
         Event.DeleteMessageBatch { Entries := entries, QueueUrl := some sourceUrl } resp err] ∧
      entries.length = received.Messages.length ∧
      ∀ k : Nat, entries[k]? = received.Messages[k]?.map fun m =>
        { ReceiptHandle := m.ReceiptHandle, Id := m.MessageId } := by
  obtain ⟨si, h1, -, -⟩ := mainLoop_cycle_at svc sourceUrl destUrl fuel s i c hc
  rcases mainLoopBody_cases svc sourceUrl destUrl si _ rfl _ rfl _ rfl _ rfl _ rfl with
    h | h | h | h | h | h | h | h
  · obtain ⟨-, hb⟩ := h
    rw [hb] at h1; subst h1; simp at hsend
  · obtain ⟨-, e, -, hb⟩ := h
    rw [hb] at h1; subst h1; simp at hsend
  · obtain ⟨-, -, e, he, hb⟩ := h
    rw [hb] at h1; subst h1; simp at hsend
    rw [he] at hsend; simp at hsend
  · obtain ⟨-, -, -, hf, hb⟩ := h
    rw [hb] at h1; subst h1; simp at hsend
    obtain ⟨-, ho, -⟩ := hsend
    rw [ho] at hfailed; exact absurd hfailed hf
  · obtain ⟨-, -, -, -, hl, hb⟩ := h
    rw [hb] at h1; subst h1; simp at hsend hreceive
    obtain ⟨-, ho, -⟩ := hsend
    obtain ⟨-, hr, -⟩ := hreceive
    rw [ho, hr] at hsuccessful; exact absurd hsuccessful hl
  · obtain ⟨-, -, -, -, -, e, -, hb⟩ := h
    rw [hb] at h1; subst h1; simp at hsend hreceive
    obtain ⟨hsi, hso, hse⟩ := hsend
    obtain ⟨hri, hro, hre⟩ := hreceive
    subst hsi hso hri hro hre
    refine ⟨_, _, _, rfl, ?_, ?_, ?_⟩
    · simp [serviceCalls, Event.isCall, ← hse]
    · simp [convertSuccessfulMessageToBatchRequestEntry]
    · intro k; simp [convertSuccessfulMessageToBatchRequestEntry]
  · obtain ⟨-, -, -, -, -, -, -, hb⟩ := h
    rw [hb] at h1; subst h1; simp at hsend hreceive
    obtain ⟨hsi, hso, hse⟩ := hsend
    obtain ⟨hri, hro, hre⟩ := hreceive
    subst hsi hso hri hro hre
    refine ⟨_, _, _, rfl, ?_, ?_, ?_⟩
    · simp [serviceCalls, Event.isCall, ← hse]
    · simp [convertSuccessfulMessageToBatchRequestEntry]
    · intro k; simp [convertSuccessfulMessageToBatchRequestEntry]
  · obtain ⟨-, -, -, -, -, -, -, hb⟩ := h
    rw [hb] at h1; subst h1; simp at hsend hreceive
    obtain ⟨hsi, hso, hse⟩ := hsend
    obtain ⟨hri, hro, hre⟩ := hreceive
    subst hsi hso hri hro hre
    refine ⟨_, _, _, rfl, ?_, ?_, ?_⟩
    · simp [serviceCalls, Event.isCall, ← hse]
    · simp [convertSuccessfulMessageToBatchRequestEntry]
    · intro k; simp [convertSuccessfulMessageToBatchRequestEntry]

/-- Witness of C3: in the first pass of the drain of `[A, B, C]` against the
well-behaved service, the one delete-batch call is made on the source address
with the three entries of the batch. -/
theorem C3_confirmed_send_is_followed_by_one_delete_witness :
    ∃ (entries : List DeleteMessageBatchRequestEntry) (resp : DeleteMessageBatchOutput)
      (err : Option GoError),
      (mainLoopBody (wellBehaved "source" "dest") "source" "dest"
          { source := [msg "A", msg "B", msg "C"], dest := [] }).1.filter Event.isDelete =
        [Event.DeleteMessageBatch { Entries := entries, QueueUrl := some "source" } resp err] ∧
      entries.length = 3 ∧
      ∀ k : Nat, entries[k]? = [msg "A", msg "B", msg "C"][k]?.map fun m =>
        { ReceiptHandle := m.ReceiptHandle, Id := m.MessageId } :=
  have h := C3_confirmed_send_is_followed_by_one_delete (wellBehaved "source" "dest")
    "source" "dest" 2 { source := [msg "A", msg "B", msg "C"], dest := [] } 0 _
    (mainLoop_head _ _ _ _ _)
    (receiveParams "source") { Messages := [msg "A", msg "B", msg "C"] } none
    (by simp [mainLoopBody, wellBehaved, receiveParams, convertToEntries])
    { QueueUrl := some "dest", Entries := convertToEntries [msg "A", msg "B", msg "C"] }
    { Failed := []
      Successful := [{ Id := some "A", MessageId := some "A" },
                     { Id := some "B", MessageId := some "B" },
                     { Id := some "C", MessageId := some "C" }] }
    (by simp [mainLoopBody, wellBehaved, receiveParams, convertToEntries, msg])
    rfl rfl
  match h with
  | ⟨entries, resp, err, h1, _, h3, h4⟩ => ⟨entries, resp, err, h1, h3, h4⟩

/-- Counterexample to C4 as stated: in the scenario "5 messages, all
forwarded, delete-batch fails for 1", the delete-batch call of the first pass
comes back without an error of the call and with one entry in `Failed`; the
pass ends the process in the Fatal state instead of going back to the top of
the loop, and a run with fuel for five passes makes one pass only. -/
theorem C4_counterexample :
    Event.DeleteMessageBatch
        { Entries := convertSuccessfulMessageToBatchRequestEntry
            [msg "A", msg "B", msg "C", msg "D", msg "E"]
          QueueUrl := some "source" }
        { Failed := [{ Id := some "E", Code := some "ReceiptHandleIsInvalid", Message := none }]
          Successful := [{ Id := some "A" }, { Id := some "B" }, { Id := some "C" },
                         { Id := some "D" }] } none
      ∈ (mainLoopBody itemFailedDeleteService "source" "dest" ()).1 ∧
    (mainLoopBody itemFailedDeleteService "source" "dest" ()).2 =
      Step.exit Termination.Fatal () ∧
    (mainLoop itemFailedDeleteService "source" "dest" 5 ()).result = some Termination.Fatal ∧
    (mainLoop itemFailedDeleteService "source" "dest" 5 ()).cycles.length = 1 := by
  simp [mainLoop, mainLoopBody, itemFailedDeleteService, fixedService]

/-- C4, as the code has it: in every pass of a run in which the delete-batch
call came back without an error of the call but with at least one entry in
`Failed`, the failed entries are written to the log by `log.Fatalln` and the
process ends in the Fatal state with that pass; the delete is the last call of
the queue service. -/
theorem C4_failed_delete_entry_is_fatal {σ : Type} (svc : SQS σ) (sourceUrl destUrl : String)
    (fuel : Nat) (s : σ) (i : Nat) (c : List Event)
    (hc : (mainLoop svc sourceUrl destUrl fuel s).cycles[i]? = some c)
    (input : DeleteMessageBatchInput) (resp : DeleteMessageBatchOutput)
    (hdelete : Event.DeleteMessageBatch input resp none ∈ c) (hfailed : resp.Failed ≠ []) :
    (mainLoop svc sourceUrl destUrl fuel s).result = some Termination.Fatal ∧
    (mainLoop svc sourceUrl destUrl fuel s).cycles.length = i + 1 ∧
    c.getLast? = some (Event.log (LogLine.fatalDeleteFailed resp.Failed)) ∧
    (serviceCalls c).getLast? = some (Event.DeleteMessageBatch input resp none) := by
  obtain ⟨si, h1, h2, -⟩ := mainLoop_cycle_at svc sourceUrl destUrl fuel s i c hc
  rcases mainLoopBody_cases svc sourceUrl destUrl si _ rfl _ rfl _ rfl _ rfl _ rfl with
    h | h | h | h | h | h | h | h
  · obtain ⟨-, hb⟩ := h
    rw [hb] at h1; subst h1; simp at hdelete
  · obtain ⟨-, e, -, hb⟩ := h
    rw [hb] at h1; subst h1; simp at hdelete
  · obtain ⟨-, -, e, -, hb⟩ := h
    rw [hb] at h1; subst h1; simp at hdelete
  · obtain ⟨-, -, -, -, hb⟩ := h
    rw [hb] at h1; subst h1; simp at hdelete
  · obtain ⟨-, -, -, -, -, hb⟩ := h
    rw [hb] at h1; subst h1; simp at hdelete
  · obtain ⟨-, -, -, -, -, e, he, hb⟩ := h
    rw [hb] at h1; subst h1; simp at hdelete
    rw [he] at hdelete; simp at hdelete
  · obtain ⟨-, -, -, -, -, hde, -, hb⟩ := h
    obtain ⟨a, b, -⟩ := h2 Termination.Fatal _ (by rw [hb])
    rw [hb] at h1; subst h1; simp at hdelete
    obtain ⟨hi, ho, -⟩ := hdelete
    refine ⟨a, b, ?_, ?_⟩
    · simp [ho]
    · simp [serviceCalls, Event.isCall, hi, ho, hde]
  · obtain ⟨-, -, -, -, -, -, hf, hb⟩ := h
    rw [hb] at h1; subst h1; simp at hdelete
    obtain ⟨-, ho, -⟩ := hdelete
    rw [ho] at hfailed; exact absurd hf hfailed

/-- Witness of C4 as the code has it: in the scenario "5 messages, all
forwarded, delete-batch fails for 1" the run ends Fatal in its first pass. -/
theorem C4_failed_delete_entry_is_fatal_witness :
    (mainLoop itemFailedDeleteService "source" "dest" 3 ()).result = some Termination.Fatal ∧
    (mainLoop itemFailedDeleteService "source" "dest" 3 ()).cycles.length = 1 ∧
    (mainLoopBody itemFailedDeleteService "source" "dest" ()).1.getLast? =
      some (Event.log (LogLine.fatalDeleteFailed
        [{ Id := some "E", Code := some "ReceiptHandleIsInvalid", Message := none }])) ∧
    (serviceCalls (mainLoopBody itemFailedDeleteService "source" "dest" ()).1).getLast? =
      some (Event.DeleteMessageBatch
        { Entries := convertSuccessfulMessageToBatchRequestEntry
            [msg "A", msg "B", msg "C", msg "D", msg "E"]
          QueueUrl := some "source" }
        { Failed := [{ Id := some "E", Code := some "ReceiptHandleIsInvalid", Message := none }]
          Successful := [{ Id := some "A" }, { Id := some "B" }, { Id := some "C" },
                         { Id := some "D" }] } none) :=
  C4_failed_delete_entry_is_fatal itemFailedDeleteService "source" "dest" 3 () 0 _
    (mainLoop_head _ _ _ _ _)
    { Entries := convertSuccessfulMessageToBatchRequestEntry
        [msg "A", msg "B", msg "C", msg "D", msg "E"]
      QueueUrl := some "source" }
    { Failed := [{ Id := some "E", Code := some "ReceiptHandleIsInvalid", Message := none }]
      Successful := [{ Id := some "A" }, { Id := some "B" }, { Id := some "C" },
                     { Id := some "D" }] }
    (by simp [mainLoopBody, itemFailedDeleteService, fixedService]) (by simp)

/-- C5, what the code does: when the receive call fails and the client returns
the error next to an output value without messages, the test of line 61 comes
before the error test of line 66: the run logs "transfer complete" and ends in
the Drained state after that single call, not in the Fatal state. -/
theorem C5_failed_receive_ends_drained :
    (mainLoop failedReceiveService "source" "dest" 1 ()).result = some Termination.Drained ∧
    (mainLoop failedReceiveService "source" "dest" 1 ()).cycles =
      [[Event.log LogLine.startingNewBatch,
        Event.ReceiveMessage (receiveParams "source") { Messages := [] }
          (some "RequestError: send request failed"),
        Event.log LogLine.transferComplete]] := by
  simp [mainLoop, mainLoopBody, failedReceiveService, fixedService]

/-- C6: in every pass of a run in which the receive succeeded and returned
zero messages, the process ends in the Drained state with that pass, and the
receive is the only call of the queue service in the pass (no send-batch, no
delete-batch); when that pass is the first one, the whole run is this single
call. -/
theorem C6_empty_receive_ends_drained {σ : Type} (svc : SQS σ) (sourceUrl destUrl : String)
    (fuel : Nat) (s : σ) (i : Nat) (c : List Event)
    (hc : (mainLoop svc sourceUrl destUrl fuel s).cycles[i]? = some c)
    (rinput : ReceiveMessageInput) (received : ReceiveMessageOutput)
    (hreceive : Event.ReceiveMessage rinput received none ∈ c)
    (hempty : received.Messages = []) :
    (mainLoop svc sourceUrl destUrl fuel s).result = some Termination.Drained ∧
    (mainLoop svc sourceUrl destUrl fuel s).cycles.length = i + 1 ∧
    serviceCalls c = [Event.ReceiveMessage (receiveParams sourceUrl) received none] ∧
    (i = 0 → (mainLoop svc sourceUrl destUrl fuel s).cycles.map serviceCalls =
      [[Event.ReceiveMessage (receiveParams sourceUrl) received none]]) := by
  obtain ⟨si, h1, h2, -⟩ := mainLoop_cycle_at svc sourceUrl destUrl fuel s i c hc
  rcases mainLoopBody_cases svc sourceUrl destUrl si _ rfl _ rfl _ rfl _ rfl _ rfl with
    h | h | h | h | h | h | h | h
  · obtain ⟨-, hb⟩ := h
    obtain ⟨a, b, -⟩ := h2 Termination.Drained _ (by rw [hb])
    rw [hb] at h1; subst h1; simp at hreceive
    obtain ⟨-, ho, he⟩ := hreceive
    have hcalls : serviceCalls
        [Event.log LogLine.startingNewBatch,
         Event.ReceiveMessage (receiveParams sourceUrl)
           (svc.ReceiveMessage (receiveParams sourceUrl) si).out
           (svc.ReceiveMessage (receiveParams sourceUrl) si).err,
         Event.log LogLine.transferComplete] =
        [Event.ReceiveMessage (receiveParams sourceUrl) received none] := by
      simp [serviceCalls, Event.isCall, ho, he]
    refine ⟨a, b, hcalls, ?_⟩
    intro hi
    subst hi
    have hd := drop_of_last _ 0 _ hc b
    simp at hd
    rw [hd]
    simp [hcalls]
  · obtain ⟨hne, e, -, hb⟩ := h
    rw [hb] at h1; subst h1; simp at hreceive
    obtain ⟨-, ho, -⟩ := hreceive
    rw [ho] at hempty; exact absurd hempty hne
  · obtain ⟨hne, -, e, -, hb⟩ := h
    rw [hb] at h1; subst h1; simp at hreceive
    obtain ⟨-, ho, -⟩ := hreceive
    rw [ho] at hempty; exact absurd hempty hne
  · obtain ⟨hne, -, -, -, hb⟩ := h
    rw [hb] at h1; subst h1; simp at hreceive
    obtain ⟨-, ho, -⟩ := hreceive
    rw [ho] at hempty; exact absurd hempty hne
  · obtain ⟨hne, -, -, -, -, hb⟩ := h
    rw [hb] at h1; subst h1; simp at hreceive
    obtain ⟨-, ho, -⟩ := hreceive
    rw [ho] at hempty; exact absurd hempty hne
  · obtain ⟨hne, -, -, -, -, e, -, hb⟩ := h
    rw [hb] at h1; subst h1; simp at hreceive
    obtain ⟨-, ho, -⟩ := hreceive
    rw [ho] at hempty; exact absurd hempty hne
  · obtain ⟨hne, -, -, -, -, -, -, hb⟩ := h
    rw [hb] at h1; subst h1; simp at hreceive
    obtain ⟨-, ho, -⟩ := hreceive
    rw [ho] at hempty; exact absurd hempty hne
  · obtain ⟨hne, -, -, -, -, -, -, hb⟩ := h
    rw [hb] at h1; subst h1; simp at hreceive
    obtain ⟨-, ho, -⟩ := hreceive
    rw [ho] at hempty; exact absurd hempty hne

/-- Witness of C6: a run against the well-behaved service with an empty source
ends Drained after one receive. -/
theorem C6_empty_receive_ends_drained_witness :
    (mainLoop (wellBehaved "source" "dest") "source" "dest" 3
      { source := [], dest := [] }).result = some Termination.Drained ∧
    (mainLoop (wellBehaved "source" "dest") "source" "dest" 3
      { source := [], dest := [] }).cycles.map serviceCalls =
      [[Event.ReceiveMessage (receiveParams "source") { Messages := [] } none]] :=
  have h := C6_empty_receive_ends_drained (wellBehaved "source" "dest") "source" "dest" 3
    { source := [], dest := [] } 0 _ (mainLoop_head _ _ _ _ _)
    (receiveParams "source") { Messages := [] }
    (by simp [mainLoopBody, wellBehaved, receiveParams]) rfl
  ⟨h.1, h.2.2.2 rfl⟩

/-- C7: for every list of messages, `convertToEntries` and
`convertSuccessfulMessageToBatchRequestEntry` return a list of the same
length; the identifiers of the output are those of the input, in order; entry
`i` of the forward list carries body and identifier of message `i`, entry `i`
of the delete list carries receipt token and identifier of message `i`. -/
theorem C7_mappers_keep_length_order_and_identifiers (messages : List Message) :
    (convertToEntries messages).length = messages.length ∧
    (convertSuccessfulMessageToBatchRequestEntry messages).length = messages.length ∧
    (convertToEntries messages).map (fun e => e.Id) = messages.map (fun m => m.MessageId) ∧
    (convertSuccessfulMessageToBatchRequestEntry messages).map (fun e => e.Id) =
      messages.map (fun m => m.MessageId) ∧
    (∀ i : Nat, (convertToEntries messages)[i]? =
      messages[i]?.map fun m => { MessageBody := m.Body, Id := m.MessageId }) ∧
    (∀ i : Nat, (convertSuccessfulMessageToBatchRequestEntry messages)[i]? =
      messages[i]?.map fun m => { ReceiptHandle := m.ReceiptHandle, Id := m.MessageId }) := by
  refine ⟨?_, ?_, ?_, ?_, ?_, ?_⟩
  · simp [convertToEntries]
  · simp [convertSuccessfulMessageToBatchRequestEntry]
  · simp [convertToEntries]
  · simp [convertSuccessfulMessageToBatchRequestEntry]
  · intro i; simp [convertToEntries]
  · intro i; simp [convertSuccessfulMessageToBatchRequestEntry]

/-- C8: for every source queue of `n` messages and the well-behaved queue
service, the transfer loop, given fuel for one pass per ten messages (rounded
up) and one more, ends in the Drained state with the source empty and the
destination holding exactly `n` entries, in the order of the source, entry `k`
carrying the body and the identifier of source message `k`: the identifiers
on the destination are those of the source messages, the bodies are those of
the source messages, `n` moved, none twice. -/
theorem C8_well_behaved_service_is_drained (sourceUrl destUrl : String)
    (messages : List Message) (fuel : Nat) (hfuel : (messages.length + 9) / 10 < fuel) :
    (mainLoop (wellBehaved sourceUrl destUrl) sourceUrl destUrl fuel
      { source := messages, dest := [] }).result = some Termination.Drained ∧
    (mainLoop (wellBehaved sourceUrl destUrl) sourceUrl destUrl fuel
      { source := messages, dest := [] }).state.source = [] ∧
    (mainLoop (wellBehaved sourceUrl destUrl) sourceUrl destUrl fuel
      { source := messages, dest := [] }).state.dest =
      messages.map (fun m => { MessageBody := m.Body, Id := m.MessageId }) ∧
    (mainLoop (wellBehaved sourceUrl destUrl) sourceUrl destUrl fuel
      { source := messages, dest := [] }).state.dest.map (fun e => e.Id) =
      messages.map (fun m => m.MessageId) ∧
    (mainLoop (wellBehaved sourceUrl destUrl) sourceUrl destUrl fuel
      { source := messages, dest := [] }).state.dest.map (fun e => e.MessageBody) =
      messages.map (fun m => m.Body) ∧
    (mainLoop (wellBehaved sourceUrl destUrl) sourceUrl destUrl fuel
      { source := messages, dest := [] }).state.dest.length = messages.length ∧
    (mainLoop (wellBehaved sourceUrl destUrl) sourceUrl destUrl fuel
      { source := messages, dest := [] }).cycles.length = (messages.length + 9) / 10 + 1 := by
  obtain ⟨a, b, c⟩ := wellBehaved_drains sourceUrl destUrl fuel messages [] hfuel
  refine ⟨a, ?_, ?_, ?_, ?_, ?_, c⟩
  · rw [b]
  · rw [b]; simp [convertToEntries]
  · rw [b]; simp [convertToEntries]
  · rw [b]; simp [convertToEntries]
  · rw [b]; simp [convertToEntries]

/-- Witness of C8, the scenario of the spec: the source holds `[A, B, C]`; the
run ends Drained after two passes with the source empty and the bodies and
identifiers of A, B and C, in this order, on the destination. -/
theorem C8_well_behaved_service_is_drained_witness :
    (mainLoop (wellBehaved "source" "dest") "source" "dest" 2
      { source := [msg "A", msg "B", msg "C"], dest := [] }).result =
      some Termination.Drained ∧
    (mainLoop (wellBehaved "source" "dest") "source" "dest" 2
      { source := [msg "A", msg "B", msg "C"], dest := [] }).state.source = [] ∧
    (mainLoop (wellBehaved "source" "dest") "source" "dest" 2
      { source := [msg "A", msg "B", msg "C"], dest := [] }).state.dest =
      [{ MessageBody := some "body-A", Id := some "A" },
       { MessageBody := some "body-B", Id := some "B" },
       { MessageBody := some "body-C", Id := some "C" }] ∧
    (mainLoop (wellBehaved "source" "dest") "source" "dest" 2
      { source := [msg "A", msg "B", msg "C"], dest := [] }).cycles.length = 2 :=
  have h := C8_well_behaved_service_is_drained "source" "dest" [msg "A", msg "B", msg "C"] 2
    (by decide)
  ⟨h.1, h.2.1, h.2.2.1.trans (by simp [msg]), h.2.2.2.2.2.2⟩

/-- C9: in every pass of a run in which the send-batch call or the
delete-batch call itself fails (comes back with an error), the process ends in
the Fatal state with that pass, and the failed call is the last call of the
queue service: no delete after a failed send, no receive after a failed
delete. -/
theorem C9_failed_call_is_fatal {σ : Type} (svc : SQS σ) (sourceUrl destUrl : String)
    (fuel : Nat) (s : σ) (i : Nat) (c : List Event)
    (hc : (mainLoop svc sourceUrl destUrl fuel s).cycles[i]? = some c)
    (ev : Event) (hev : ev ∈ c)
    (hfail : (∃ input resp e, ev = Event.SendMessageBatch input resp (some e)) ∨
             (∃ input resp e, ev = Event.DeleteMessageBatch input resp (some e))) :
    (mainLoop svc sourceUrl destUrl fuel s).result = some Termination.Fatal ∧
    (mainLoop svc sourceUrl destUrl fuel s).cycles.length = i + 1 ∧
    (serviceCalls c).getLast? = some ev ∧
    (ev.isSend = true → ∀ x ∈ c, x.isDelete = false) := by
  obtain ⟨si, h1, h2, -⟩ := mainLoop_cycle_at svc sourceUrl destUrl fuel s i c hc
  rcases mainLoopBody_cases svc sourceUrl destUrl si _ rfl _ rfl _ rfl _ rfl _ rfl with
    h | h | h | h | h | h | h | h
  · obtain ⟨-, hb⟩ := h
    rw [hb] at h1; subst h1
    rcases hfail with ⟨a, b, e, rfl⟩ | ⟨a, b, e, rfl⟩ <;> simp at hev
  · obtain ⟨-, e, -, hb⟩ := h
    rw [hb] at h1; subst h1
    rcases hfail with ⟨a, b, e, rfl⟩ | ⟨a, b, e, rfl⟩ <;> simp at hev
  · obtain ⟨-, -, e, he, hb⟩ := h
    obtain ⟨a, b, -⟩ := h2 Termination.Fatal _ (by rw [hb])
    rw [hb] at h1; subst h1
    rcases hfail with ⟨x, y, e2, rfl⟩ | ⟨x, y, e2, rfl⟩
    · simp at hev
      obtain ⟨hi, ho, hee⟩ := hev
      refine ⟨a, b, ?_, ?_⟩
      · simp [serviceCalls, Event.isCall, hi, ho, hee]
      · intro _; simp [Event.isDelete]
    · simp at hev
  · obtain ⟨-, -, hse, -, hb⟩ := h
    rw [hb] at h1; subst h1
    rcases hfail with ⟨x, y, e2, rfl⟩ | ⟨x, y, e2, rfl⟩
    · simp at hev
      rw [hse] at hev; simp at hev
    · simp at hev
  · obtain ⟨-, -, hse, -, -, hb⟩ := h
    rw [hb] at h1; subst h1
    rcases hfail with ⟨x, y, e2, rfl⟩ | ⟨x, y, e2, rfl⟩
    · simp at hev
      rw [hse] at hev; simp at hev
    · simp at hev
  · obtain ⟨-, -, hse, -, -, e, he, hb⟩ := h
    obtain ⟨a, b, -⟩ := h2 Termination.Fatal _ (by rw [hb])
    rw [hb] at h1; subst h1
    rcases hfail with ⟨x, y, e2, rfl⟩ | ⟨x, y, e2, rfl⟩
    · simp at hev
      rw [hse] at hev; simp at hev
    · simp at hev
      obtain ⟨hi, ho, hee⟩ := hev
      refine ⟨a, b, ?_, ?_⟩
      · simp [serviceCalls, Event.isCall, hi, ho, hee]
      · intro hx; simp [Event.isSend] at hx
  · obtain ⟨-, -, hse, -, -, hde, -, hb⟩ := h
    rw [hb] at h1; subst h1
    rcases hfail with ⟨x, y, e2, rfl⟩ | ⟨x, y, e2, rfl⟩
    · simp at hev
      rw [hse] at hev; simp at hev
    · simp at hev
      rw [hde] at hev; simp at hev
  · obtain ⟨-, -, hse, -, -, hde, -, hb⟩ := h
    rw [hb] at h1; subst h1
    rcases hfail with ⟨x, y, e2, rfl⟩ | ⟨x, y, e2, rfl⟩
    · simp at hev
      rw [hse] at hev; simp at hev
    · simp at hev
      rw [hde] at hev; simp at hev

/-- Witness of C9: a run whose send-batch call fails ends Fatal after the
receive and the send; a run whose delete-batch call fails ends Fatal after the
receive, the send and the delete. -/
theorem C9_failed_call_is_fatal_witness :
    ((mainLoop failedSendService "source" "dest" 3 ()).result = some Termination.Fatal ∧
     (mainLoop failedSendService "source" "dest" 3 ()).cycles.length = 1 ∧
     (serviceCalls (mainLoopBody failedSendService "source" "dest" ()).1).getLast? =
       some (Event.SendMessageBatch
         { QueueUrl := some "dest", Entries := convertToEntries [msg "A", msg "B"] }
         { Failed := [], Successful := [] } (some "RequestError: send request failed"))) ∧
    ((mainLoop failedDeleteService "source" "dest" 3 ()).result = some Termination.Fatal ∧
     (mainLoop failedDeleteService "source" "dest" 3 ()).cycles.length = 1 ∧
     (serviceCalls (mainLoopBody failedDeleteService "source" "dest" ()).1).getLast? =
       some (Event.DeleteMessageBatch
         { Entries := convertSuccessfulMessageToBatchRequestEntry [msg "A", msg "B"]
           QueueUrl := some "source" }
         { Failed := [], Successful := [] } (some "RequestError: send request failed"))) :=
  have h1 := C9_failed_call_is_fatal failedSendService "source" "dest" 3 () 0 _
    (mainLoop_head _ _ _ _ _)
    (Event.SendMessageBatch
      { QueueUrl := some "dest", Entries := convertToEntries [msg "A", msg "B"] }
      { Failed := [], Successful := [] } (some "RequestError: send request failed"))
    (by simp [mainLoopBody, failedSendService, fixedService])
    (Or.inl ⟨_, _, _, rfl⟩)
  have h2 := C9_failed_call_is_fatal failedDeleteService "source" "dest" 3 () 0 _
    (mainLoop_head _ _ _ _ _)
    (Event.DeleteMessageBatch
      { Entries := convertSuccessfulMessageToBatchRequestEntry [msg "A", msg "B"]
        QueueUrl := some "source" }
      { Failed := [], Successful := [] } (some "RequestError: send request failed"))
    (by simp [mainLoopBody, failedDeleteService, fixedService])
    (Or.inr ⟨_, _, _, rfl⟩)
  ⟨⟨h1.1, h1.2.1, h1.2.2.1⟩, ⟨h2.1, h2.2.1, h2.2.2.1⟩⟩

/-- C10: in every pass of a run in which the receive returned the batch
`received.Messages` and the send-batch call came back without error and with
an empty `Failed` list, but with a `Successful` list whose length differs from
the number of received messages, no delete-batch call is made and the process
does not end: the receive and the send are the only calls of the pass, the run
has not ended when this pass is the last one followed, and with fuel left the
next pass follows, starting with the next receive. -/
theorem C10_short_successful_list_skips_delete {σ : Type} (svc : SQS σ)
    (sourceUrl destUrl : String) (fuel : Nat) (s : σ) (i : Nat) (c : List Event)
    (hc : (mainLoop svc sourceUrl destUrl fuel s).cycles[i]? = some c)
    (rinput : ReceiveMessageInput) (received : ReceiveMessageOutput) (rerr : Option GoError)
    (hreceive : Event.ReceiveMessage rinput received rerr ∈ c)
    (sinput : SendMessageBatchInput) (sent : SendMessageBatchOutput)
    (hsend : Event.SendMessageBatch sinput sent none ∈ c)
    (hfailed : sent.Failed = [])
    (hsuccessful : sent.Successful.length ≠ received.Messages.length) :
    (∀ e ∈ c, e.isDelete = false) ∧
    serviceCalls c =
      [Event.ReceiveMessage rinput received rerr, Event.SendMessageBatch sinput sent none] ∧
    ((mainLoop svc sourceUrl destUrl fuel s).cycles.length = i + 1 →
      (mainLoop svc sourceUrl destUrl fuel s).result = none) ∧
    (i + 1 < fuel → ∃ (c' : List Event) (received' : ReceiveMessageOutput)
      (rerr' : Option GoError),
      (mainLoop svc sourceUrl destUrl fuel s).cycles[i + 1]? = some c' ∧
      c'.take 2 = [Event.log LogLine.startingNewBatch,
                   Event.ReceiveMessage (receiveParams sourceUrl) received' rerr']) := by
  obtain ⟨si, h1, -, h3⟩ := mainLoop_cycle_at svc sourceUrl destUrl fuel s i c hc
  rcases mainLoopBody_cases svc sourceUrl destUrl si _ rfl _ rfl _ rfl _ rfl _ rfl with
    h | h | h | h | h | h | h | h
  · obtain ⟨-, hb⟩ := h
    rw [hb] at h1; subst h1; simp at hsend
  · obtain ⟨-, e, -, hb⟩ := h
    rw [hb] at h1; subst h1; simp at hsend
  · obtain ⟨-, -, e, he, hb⟩ := h
    rw [hb] at h1; subst h1; simp at hsend
    rw [he] at hsend; simp at hsend
  · obtain ⟨-, -, -, hf, hb⟩ := h
    rw [hb] at h1; subst h1; simp at hsend
    obtain ⟨-, ho, -⟩ := hsend
    rw [ho] at hfailed; exact absurd hfailed hf
  · obtain ⟨-, -, -, -, -, hb⟩ := h
    obtain ⟨a, b⟩ := h3 _ (by rw [hb])
    rw [hb] at h1; subst h1; simp at hsend hreceive
    obtain ⟨hsi, hso, hse⟩ := hsend
    obtain ⟨hri, hro, hre⟩ := hreceive
    refine ⟨?_, ?_, a, ?_⟩
    · simp [Event.isDelete]
    · simp [serviceCalls, Event.isCall, hsi, hso, ← hse, hri, hro, hre]
    · intro hlt
      obtain ⟨rest, hrest⟩ := mainLoopBody_starts svc sourceUrl destUrl
        (svc.SendMessageBatch
          { QueueUrl := some destUrl
            Entries := convertToEntries (svc.ReceiveMessage (receiveParams sourceUrl) si).out.Messages }
          (svc.ReceiveMessage (receiveParams sourceUrl) si).state).state
      exact ⟨_, _, _, b hlt, by rw [hrest]; rfl⟩
  · obtain ⟨-, -, -, -, hl, e, -, hb⟩ := h
    rw [hb] at h1; subst h1; simp at hsend hreceive
    obtain ⟨-, ho, -⟩ := hsend
    obtain ⟨-, hr, -⟩ := hreceive
    rw [ho, hr] at hsuccessful; exact absurd hl hsuccessful
  · obtain ⟨-, -, -, -, hl, -, -, hb⟩ := h
    rw [hb] at h1; subst h1; simp at hsend hreceive
    obtain ⟨-, ho, -⟩ := hsend
    obtain ⟨-, hr, -⟩ := hreceive
    rw [ho, hr] at hsuccessful; exact absurd hl hsuccessful
  · obtain ⟨-, -, -, -, hl, -, -, hb⟩ := h
    rw [hb] at h1; subst h1; simp at hsend hreceive
    obtain ⟨-, ho, -⟩ := hsend
    obtain ⟨-, hr, -⟩ := hreceive
    rw [ho, hr] at hsuccessful; exact absurd hl hsuccessful

/-- Witness of C10: against a service whose send-batch reports one forwarded
item for a batch of two and none failed, the first pass makes the receive and
the send only, and the second pass follows with the next receive. -/
theorem C10_short_successful_list_skips_delete_witness :
    serviceCalls (mainLoopBody shortSendService "source" "dest" ()).1 =
      [Event.ReceiveMessage (receiveParams "source") { Messages := [msg "A", msg "B"] } none,
       Event.SendMessageBatch
         { QueueUrl := some "dest", Entries := convertToEntries [msg "A", msg "B"] }
         { Failed := [], Successful := [{ Id := some "A", MessageId := some "dest-A" }] }
         none] ∧
    ∃ (c' : List Event) (received' : ReceiveMessageOutput) (rerr' : Option GoError),
      (mainLoop shortSendService "source" "dest" 3 ()).cycles[0 + 1]? = some c' ∧
      c'.take 2 = [Event.log LogLine.startingNewBatch,
                   Event.ReceiveMessage (receiveParams "source") received' rerr'] :=
  have h := C10_short_successful_list_skips_delete shortSendService "source" "dest" 3 () 0 _
    (mainLoop_head _ _ _ _ _)
    (receiveParams "source") { Messages := [msg "A", msg "B"] } none
    (by simp [mainLoopBody, shortSendService, fixedService])
    { QueueUrl := some "dest", Entries := convertToEntries [msg "A", msg "B"] }
    { Failed := [], Successful := [{ Id := some "A", MessageId := some "dest-A" }] }
    (by simp [mainLoopBody, shortSendService, fixedService])
    rfl (by simp)
  ⟨h.2.1, h.2.2.2 (by decide)⟩

end SqsMover
